import Mathlib

/-!
Shallow embedding of the reading-session core of the ereader repository:
the LLM request client (`src/utils/llm-client.ts`), the translation cache and
text hash (`src/store/useBookStore.ts`), the progress tracker and paragraph
translation handler (`src/hooks/useEpubReader.ts`), and the quick-prompt
templates (`src/services/llm.ts`).  Pure functions are translated directly;
the stateful progress tracker is modelled as explicit state passing; machine
integers use `Int` with explicit two's-complement wrapping.
-/

namespace Ereader

/-! ## String helpers (explicit list-level models of the JS string operations) -/

/-- Does `pre` occur at the start of `l`?  Models JS `startsWith` at list level. -/
def charListPrefixAux : List Char → List Char → Bool
  | [], _ => true
  | _ :: _, [] => false
  | a :: as, b :: bs => a == b && charListPrefixAux as bs

/-- `strStartsWith s pat` models JS `s.startsWith(pat)`. -/
def strStartsWith (s pat : String) : Bool :=
  charListPrefixAux pat.data s.data

/-- `strEndsWith s pat` models JS `s.endsWith(pat)`. -/
def strEndsWith (s pat : String) : Bool :=
  charListPrefixAux pat.data.reverse s.data.reverse

/-- Does `pat` occur as a contiguous substring of `l`?  Models JS `includes`. -/
def charListContains (pat : List Char) : List Char → Bool
  | [] => charListPrefixAux pat []
  | c :: rest => charListPrefixAux pat (c :: rest) || charListContains pat rest

/-- `containsSub s pat` models JS `s.includes(pat)`. -/
def containsSub (s pat : String) : Bool :=
  charListContains pat.data s.data

/-- Models JS `String.prototype.trim` (whitespace stripped from both ends). -/
def strTrim (s : String) : String :=
  ⟨((s.data.dropWhile Char.isWhitespace).reverse.dropWhile Char.isWhitespace).reverse⟩

/-- Models the regex replace `/\/+$/` with `''`: drop all trailing slashes. -/
def dropTrailingSlashes (s : String) : String :=
  ⟨(s.data.reverse.dropWhile (· == '/')).reverse⟩

/-- Models JS `href.split('#')[0]`: the prefix of the string before the first
`'#'` (the whole string when no `'#'` occurs). -/
def stripFragment (href : String) : String :=
  ⟨href.data.takeWhile (· ≠ '#')⟩

/-- ASCII lower-casing of a string, modelling the case-insensitive `/i` regex
flag on the ASCII pattern `^https?:\/\//`. -/
def strToLower (s : String) : String :=
  ⟨s.data.map Char.toLower⟩

/-! ## `hashText` (src/store/useBookStore.ts, lines 34-42)

JS source:
```
export function hashText(text: string): string {
  let hash = 0;
  for (let i = 0; i < text.length; i++) {
    const char = text.charCodeAt(i);
    hash = ((hash << 5) - hash) + char;
    hash = hash & hash; // Convert to 32bit integer
  }
  return hash.toString(36);
}
```
JS `<<` and `&` coerce to 32-bit two's-complement integers; `charCodeAt`
yields UTF-16 code units. -/

/-- Two's-complement wrap of an integer into the signed 32-bit range,
modelling JS `ToInt32`. -/
def toInt32 (n : Int) : Int :=
  (n + 2 ^ 31) % 2 ^ 32 - 2 ^ 31

/-- The UTF-16 code units of a single character (surrogate pair above the
BMP), modelling JS `charCodeAt` over string indices. -/
def charUtf16 (c : Char) : List Nat :=
  let n := c.toNat
  if n < 0x10000 then [n]
  else [0xD800 + (n - 0x10000) / 0x400, 0xDC00 + (n - 0x10000) % 0x400]

/-- The UTF-16 code-unit sequence of a string. -/
def utf16CodeUnits (s : String) : List Nat :=
  s.data.flatMap charUtf16

/-- One iteration of the `hashText` loop:
`hash = ((hash << 5) - hash) + char; hash = hash & hash`. -/
def hashStep (hash : Int) (char : Nat) : Int :=
  toInt32 (toInt32 (hash * 32) - hash + char)

/-- The digit characters used by JS `Number.prototype.toString(36)`. -/
def base36Digit (d : Nat) : Char :=
  if d < 10 then Char.ofNat (48 + d) else Char.ofNat (87 + d)

/-- Digit-accumulating loop for base-36 conversion; `fuel` bounds the number
of digits and always suffices because `m / 36 < m` for `m > 0`. -/
def natToBase36Aux : Nat → Nat → List Char → List Char
  | 0, _, acc => acc
  | _ + 1, 0, acc => acc
  | fuel + 1, m + 1, acc =>
    natToBase36Aux fuel ((m + 1) / 36) (base36Digit ((m + 1) % 36) :: acc)

/-- Base-36 digits of a natural number, most significant first. -/
def natToBase36 (n : Nat) : List Char :=
  if n = 0 then ['0'] else natToBase36Aux n n []

/-- Models JS `hash.toString(36)` on a signed integer: minus sign followed by
the base-36 digits of the absolute value. -/
def intToBase36 (i : Int) : String :=
  if i < 0 then ⟨'-' :: natToBase36 i.natAbs⟩ else ⟨natToBase36 i.toNat⟩

/-- `hashText` from src/store/useBookStore.ts. -/
def hashText (text : String) : String :=
  intToBase36 ((utf16CodeUnits text).foldl hashStep 0)

/-! ## Translation cache (src/store/useBookStore.ts, lines 77-90)

`translations : Record<bookId, Record<textHash, string>>`; `saveTranslation`
spreads the outer and inner records and writes the new key (computed-key
overwrite, last write wins); `getTranslation` is
`state.translations[bookId]?.[textHash]`. -/

/-- The translation cache, as the lookup function of the nested JS records:
absent keys read as `none`. -/
def TranslationCache : Type := String → String → Option String

/-- The empty cache (initial store state `translations: {}`). -/
def emptyCache : TranslationCache := fun _ _ => none

/-- `saveTranslation` from src/store/useBookStore.ts: unconditional overwrite
of the `(bookId, textHash)` entry, all other entries preserved. -/
def saveTranslation (tc : TranslationCache) (bookId textHash translation : String) :
    TranslationCache :=
  fun b h =>
    if b = bookId then
      if h = textHash then some translation else tc bookId h
    else tc b h

/-- `getTranslation` from src/store/useBookStore.ts. -/
def getTranslation (tc : TranslationCache) (bookId textHash : String) : Option String :=
  tc bookId textHash

/-! ## LLM request client (src/utils/llm-client.ts)

`DEFAULT_OPTIONS = { temperature: 0.3, maxRetries: 2, retryDelayMs: 1000 }`.
`chatCompletion` throws `TranslationError` with `isRetryable` set from
`isRetryableError(status)` on a non-2xx response, a non-retryable error on an
empty `choices[0]?.message?.content`, and retries while the caught error is
retryable and `attempt < maxRetries`, waiting `retryDelayMs * 2^attempt`. -/

/-- `TranslationError` from src/services/llm.ts (message, optional HTTP
status, retryability flag). -/
structure TranslationError where
  message : String
  statusCode : Option Nat
  isRetryable : Bool
  deriving Repr, DecidableEq

/-- The outcome of one `fetch` of the completion endpoint, as seen by
`chatCompletion`: a 2xx response carrying `choices[0]?.message?.content`
(the empty string modelling a missing/empty content field), or a non-2xx
response with its status code and body text. -/
inductive HttpResp where
  | ok (content : String)
  | err (status : Nat) (body : String)
  deriving Repr, DecidableEq

/-- `isRetryableError` from src/utils/llm-client.ts, lines 58-60. -/
def isRetryableError (status : Nat) : Bool :=
  status == 429 || (500 ≤ status && status < 600)

/-- The body of one iteration of the `chatCompletion` attempt loop: a non-2xx
response raises `TranslationError` with the status and retryability, an empty
content raises the non-retryable empty-response error, otherwise the content
is returned. -/
def singleAttempt : HttpResp → Except TranslationError String
  | .ok content =>
    if content = "" then
      .error ⟨"Empty response from API", none, false⟩
    else
      .ok content
  | .err status body =>
    .error
      ⟨"API error: " ++ toString status ++ (if body = "" then "" else " - " ++ body),
        some status, isRetryableError status⟩

/-- The `for (let attempt = 0; attempt <= maxRetries; attempt++)` retry loop
of `chatCompletion`, lines 96-147.  `backend` gives the HTTP outcome of the
`attempt`-th request; `retriesLeft` is `maxRetries - attempt`.  Returns the
final result, the number of requests issued, and the list of backoff delays
(`retryDelayMs * 2^attempt`) waited between attempts. -/
def attemptLoop (backend : Nat → HttpResp) (retryDelayMs : Nat) :
    Nat → Nat → Except TranslationError String × Nat × List Nat
  | attempt, 0 => (singleAttempt (backend attempt), 1, [])
  | attempt, retriesLeft + 1 =>
    match singleAttempt (backend attempt) with
    | .ok c => (.ok c, 1, [])
    | .error e =>
      if e.isRetryable then
        let r := attemptLoop backend retryDelayMs (attempt + 1) retriesLeft
        (r.1, r.2.1 + 1, retryDelayMs * 2 ^ attempt :: r.2.2)
      else
        (.error e, 1, [])

/-- The `chatCompletion` request loop at the default options
(`maxRetries = 2`, `retryDelayMs = 1000`). -/
def requestLoop (backend : Nat → HttpResp) :
    Except TranslationError String × Nat × List Nat :=
  attemptLoop backend 1000 0 2

/-- `normalizeApiUrl` from src/utils/llm-client.ts, lines 48-53. -/
def normalizeApiUrl (url : String) : String :=
  let trimmed := dropTrailingSlashes (strTrim url)
  if strEndsWith trimmed "/v1" then trimmed ++ "/chat/completions"
  else if !containsSub trimmed "/chat/completions" then trimmed ++ "/chat/completions"
  else trimmed

/-- The test `/^https?:\/\//i.test(endpoint)` from line 73. -/
def isAbsoluteUrl (endpoint : String) : Bool :=
  strStartsWith (strToLower endpoint) "http://" ||
    strStartsWith (strToLower endpoint) "https://"

instance : DecidableEq (Except TranslationError String) := fun a b =>
  match a, b with
  | .ok x, .ok y => if h : x = y then .isTrue (by rw [h]) else .isFalse (by simp [h])
  | .error x, .error y => if h : x = y then .isTrue (by rw [h]) else .isFalse (by simp [h])
  | .ok _, .error _ => .isFalse (by simp)
  | .error _, .ok _ => .isFalse (by simp)

/-- The observable outcome of one `chatCompletion` call: the Authorization
header attached to the requests (if any), the number of HTTP requests issued,
the backoff delays waited, and the final result. -/
structure CallOutcome where
  authHeader : Option String
  attempts : Nat
  delays : List Nat
  result : Except TranslationError String
  deriving Repr, DecidableEq

/-- `createLLMClient(config, apiKey).chatCompletion(messages)` from
src/utils/llm-client.ts, lines 71-148, at the default request options:
the endpoint is normalized once, an absolute endpoint with an empty API key
fails with the non-retryable missing-key error before any request, a relative
endpoint sends no Authorization header, an absolute endpoint sends
`Bearer <key>`, and the attempt loop runs with `maxRetries = 2`,
`retryDelayMs = 1000`. -/
def chatCompletion (apiUrl apiKey : String) (backend : Nat → HttpResp) : CallOutcome :=
  let endpoint := normalizeApiUrl apiUrl
  let isAbsolute := isAbsoluteUrl endpoint
  if isAbsolute && apiKey == "" then
    ⟨none, 0, [], .error ⟨"API Key is required", none, false⟩⟩
  else
    let authHeader := if isAbsolute then some ("Bearer " ++ apiKey) else none
    let r := requestLoop backend
    ⟨authHeader, r.2.1, r.2.2, r.1⟩

/-! ## Progress tracker (src/hooks/useEpubReader.ts, lines 292-320 and 381-389)

Mutable refs `pendingProgressSave`, `progressSaveTimer`, `lastProgressSaveAt`
become explicit state; `setTimeout` becomes a recorded absolute fire time;
the two writes of a flush (`useBookStore.getState().updateBookProgress` and
`saveProgressToDB`) become two append-only logs. -/

/-- A pending progress write `{ bookId, cfi, percentage }`. -/
structure ProgressWrite where
  bookId : String
  cfi : String
  percentage : ℚ
  deriving Repr, DecidableEq

/-- The state owned by the progress-saving refs of `useEpubReader`, plus the
logs of writes issued to the in-memory book list (`memWrites`) and to durable
storage (`dbWrites`), and whether `book.destroy()` has run (`destroyed`). -/
structure ProgressState where
  pending : Option ProgressWrite
  timer : Option Nat
  lastFlushAt : Nat
  memWrites : List ProgressWrite
  dbWrites : List ProgressWrite
  destroyed : Bool
  deriving Repr, DecidableEq

/-- The initial ref state: no pending write, no timer,
`lastProgressSaveAt.current = 0`, nothing written, book alive. -/
def initialProgressState : ProgressState :=
  ⟨none, none, 0, [], [], false⟩

/-- `flushProgressSave` (lines 292-300), run at wall-clock time `now`: an
empty pending slot returns immediately; otherwise the slot is cleared,
`lastProgressSaveAt` is set to `now`, and the write is issued to both the
in-memory book list and durable storage. -/
def flushProgressSave (now : Nat) (st : ProgressState) : ProgressState :=
  match st.pending with
  | none => st
  | some w =>
    { st with
      pending := none
      lastFlushAt := now
      memWrites := st.memWrites ++ [w]
      dbWrites := st.dbWrites ++ [w] }

/-- `scheduleProgressSave` (lines 302-320), run at wall-clock time `now`
(`Date.now()`): overwrite the pending slot, flush immediately when at least
1500 ms have elapsed since the last flush and no timer is pending, otherwise
schedule a timer for the remaining portion of the window if none is pending
(`Math.max(throttleMs - elapsed, 0)` is truncated subtraction), otherwise
leave the existing timer alone. -/
def scheduleProgressSave (now : Nat) (w : ProgressWrite) (st : ProgressState) :
    ProgressState :=
  let st := { st with pending := some w }
  let elapsed := now - st.lastFlushAt
  let throttleMs := 1500
  if throttleMs ≤ elapsed ∧ st.timer = none then
    flushProgressSave now st
  else if st.timer = none then
    { st with timer := some (now + (throttleMs - elapsed)) }
  else
    st

/-- The timer callback (lines 315-318): when a timer is pending it fires at
its scheduled time, clears the timer handle and flushes whatever is pending
at that moment. -/
def timerFire (st : ProgressState) : ProgressState :=
  match st.timer with
  | none => st
  | some t => flushProgressSave t { st with timer := none }

/-- The effect-cleanup function (lines 381-389), run at time `now`: clear any
scheduled timer, flush any pending write synchronously, then release the
book-document handle (`book.destroy()`). -/
def teardown (now : Nat) (st : ProgressState) : ProgressState :=
  let st := { st with timer := none }
  let st := flushProgressSave now st
  { st with destroyed := true }

/-- Feed a sequence of `relocated`-driven `(time, write)` events through
`scheduleProgressSave` in order. -/
def runEvents (st : ProgressState) : List (Nat × ProgressWrite) → ProgressState
  | [] => st
  | (t, w) :: rest => runEvents (scheduleProgressSave t w st) rest

/-! ## Paragraph double-click translation handler
(src/hooks/useEpubReader.ts, lines 217-246) -/

/-- The per-paragraph DOM state the handler reads and writes: the
`data-translated` attribute, the `has-translation` class, and the text of the
appended `translation-block` elements in order. -/
structure Paragraph where
  dataTranslated : Option String
  hasTranslationClass : Bool
  blocks : List String
  deriving Repr, DecidableEq

/-- Replace the last element of a list (the most recently appended
`translation-block`, whose `textContent` the handler mutates). -/
def setLastBlock (blocks : List String) (s : String) : List String :=
  blocks.dropLast ++ [s]

/-- `handleDblClick` from src/hooks/useEpubReader.ts, lines 217-242, as a
function of the settings flag, the paragraph state, the book id, the
paragraph's text hash, the cache, and the outcome `result` of the
`translateText` call (all thrown errors are `TranslationError` because
`translateText` converts them).  Returns the new paragraph state, the new
cache, and whether an LLM request was issued. -/
def handleDblClick (translationEnabled : Bool) (p : Paragraph)
    (bookId : Option String) (textHash : String) (cache : TranslationCache)
    (result : Except TranslationError String) :
    Paragraph × TranslationCache × Bool :=
  if !translationEnabled then (p, cache, false)
  else if p.dataTranslated = some "true" then (p, cache, false)
  else
    let p := { p with dataTranslated := some "loading", blocks := p.blocks ++ ["Translating..."] }
    match result with
    | .ok translated =>
      let p :=
        { p with
          blocks := setLastBlock p.blocks translated
          dataTranslated := some "true"
          hasTranslationClass := true }
      let cache :=
        match bookId with
        | some b => saveTranslation cache b textHash translated
        | none => cache
      (p, cache, true)
    | .error e =>
      let p :=
        { p with
          blocks := setLastBlock p.blocks e.message
          dataTranslated := none }
      (p, cache, true)

/-! ## Navigation resolver (src/hooks/useEpubReader.ts, lines 60-107)

`rendition.display` may succeed or throw; it is abstracted as a success
predicate `display : String → Bool` on targets.  The spine is the ordered
list of its items' `href`s (a falsy/empty `href` is skipped by the
`item.href && ...` guard).  The returned value is the target actually
displayed, `none` when every strategy failed (failure only logged, current
location unchanged). -/

/-- The spine-item match condition of the third fallback step (lines 87-93). -/
def spineMatch (href hrefWithoutHash item : String) : Bool :=
  item != "" &&
    (item == href ||
      item == hrefWithoutHash ||
      strEndsWith item href ||
      strEndsWith item hrefWithoutHash ||
      strEndsWith href item)

/-- `goToChapter`'s `tryDisplay` (lines 65-104): (1) display the href as
given; (2) if a `#` fragment was stripped, display the base path; (3) display
the first spine entry matching `spineMatch`; otherwise report failure
(`none`). -/
def goToChapter (display : String → Bool) (spineItems : List String)
    (href : String) : Option String :=
  if display href then some href
  else
    let hrefWithoutHash := stripFragment href
    if hrefWithoutHash ≠ href && display hrefWithoutHash then some hrefWithoutHash
    else
      match spineItems.find? (spineMatch href hrefWithoutHash) with
      | some item => if display item then some item else none
      | none => none

/-! ## Quick prompts (src/services/llm.ts, lines 117-164, 166, 169-212, 217-229)

The `QUICK_PROMPTS` / `QUICK_PROMPTS_EN` tables map a mode to a function of
the selected text; `grammar`, `background` and `vocabulary` bind the text as
`_text` and never use it (their templates are fixed strings), `plain` returns
the text unchanged. -/

namespace QUICK_PROMPTS

def grammar (_text : String) : String :=
  "请分析以上引用英文句子的语法结构：\n\n**1. 主干提取**\n找出主谓宾/主系表核心结构\n\n**2. 修饰成分**\n- 定语从句/分词短语修饰什么\n- 状语表示时间、条件、原因还是其他\n- 插入语的作用\n\n**3. 难点解析**\n如果有特殊语法现象（倒装、省略、虚拟等），在此说明\n\n**4. 中文释义**\n给出通顺自然的中文翻译\n\n注意：用简洁的语言解释，不要写成长篇大论。"

def background (_text : String) : String :=
  "请解读以上引用文字：\n\n**1. 表面意思**\n这段话在说什么？\n\n**2. 隐含信息**\n- 涉及什么历史背景、文化典故或专业知识？\n- 作者想表达什么深层含义？\n- 与上下文有什么关联？\n\n**3. 延伸阅读**（可选）\n如果涉及重要概念，简要补充说明\n\n保持简洁，每个部分几句话即可。"

def vocabulary (_text : String) : String :=
  "请解释以上引用的词汇/表达：\n\n请包括：\n- 基本含义（中文）\n- 在这个语境中的具体意思\n- 常见用法或搭配\n- 近义词辨析（如果有）"

def plain (text : String) : String := text

end QUICK_PROMPTS

namespace QUICK_PROMPTS_EN

def grammar (_text : String) : String :=
  "Please analyze the grammar structure of the quoted English sentence:\n\n**1. Core Structure**\nIdentify the subject-predicate-object/complement structure\n\n**2. Modifiers**\n- What do attributive clauses/participial phrases modify\n- Does the adverbial indicate time, condition, cause, or other\n- Function of parenthetical expressions\n\n**3. Special Grammar**\nExplain any special grammar phenomena (inversion, ellipsis, subjunctive, etc.)\n\n**4. Chinese Translation**\nProvide a smooth and natural Chinese translation\n\nNote: Keep explanations concise and clear."

def background (_text : String) : String :=
  "Please interpret the quoted text:\n\n**1. Surface Meaning**\nWhat is this passage saying?\n\n**2. Implicit Information**\n- What historical background, cultural allusions, or professional knowledge is involved?\n- What deeper meaning does the author want to express?\n- How does it relate to the context?\n\n**3. Extended Reading** (optional)\nBriefly supplement explanations if important concepts are involved\n\nKeep it concise, a few sentences for each section."

def vocabulary (_text : String) : String :=
  "Please explain the quoted vocabulary/expression:\n\nInclude:\n- Basic meaning (in Chinese)\n- Specific meaning in this context\n- Common usage or collocations\n- Synonym differentiation (if applicable)"

def plain (text : String) : String := text

end QUICK_PROMPTS_EN

/-- `QuickPromptMode` from src/services/llm.ts, line 166. -/
inductive QuickPromptMode where
  | grammar
  | background
  | plain
  deriving Repr, DecidableEq

/-- The `language` parameter of `getQuickPrompt` (default `'zh'`). -/
inductive PromptLanguage where
  | zh
  | en
  deriving Repr, DecidableEq

/-- `getQuickPrompt` from src/services/llm.ts, lines 217-229. -/
def getQuickPrompt (mode : QuickPromptMode) (selectedText : String)
    (language : PromptLanguage) : String :=
  match language, mode with
  | .en, .grammar => QUICK_PROMPTS_EN.grammar selectedText
  | .en, .background => QUICK_PROMPTS_EN.background selectedText
  | .en, .plain => QUICK_PROMPTS_EN.plain selectedText
  | .zh, .grammar => QUICK_PROMPTS.grammar selectedText
  | .zh, .background => QUICK_PROMPTS.background selectedText
  | .zh, .plain => QUICK_PROMPTS.plain selectedText

/-! ## Theorems -/

/-- The attempt loop issues at most one request more than the retry budget. -/
theorem attemptLoop_attempts_le (backend : Nat → HttpResp) (d : Nat) :
    ∀ (n attempt : Nat), (attemptLoop backend d attempt n).2.1 ≤ n + 1 := by
  intro n
  induction n with
  | zero => intro attempt; simp [attemptLoop]
  | succ n ih =>
    intro attempt
    simp only [attemptLoop]
    cases h : singleAttempt (backend attempt) with
    | ok c => simp
    | error e =>
      by_cases hr : e.isRetryable
      · simp only [hr, if_true]
        have := ih (attempt + 1)
        omega
      · simp [hr]

/-- C1: a non-2xx response with status 429 or in 500-599 is retried with
exponential backoff (delays 1000 ms then 2000 ms) up to 2 additional
attempts, so at most 3 requests in total; any other non-2xx status and an
empty response body propagate after exactly 1 request without retrying; a
successful non-empty response returns its content; after two transient
failures the third attempt's outcome (success or the last error) is what the
call returns, with exactly 3 requests and delays 1000 ms and 2000 ms. -/
theorem C1_retry_policy :
    (∀ s : Nat, isRetryableError s = true ↔ (s = 429 ∨ (500 ≤ s ∧ s < 600))) ∧
    (∀ backend : Nat → HttpResp, (requestLoop backend).2.1 ≤ 3) ∧
    (∀ (backend : Nat → HttpResp) (s : Nat) (b : String),
      backend 0 = .err s b → isRetryableError s = false →
      requestLoop backend = (singleAttempt (.err s b), 1, [])) ∧
    (∀ backend : Nat → HttpResp, backend 0 = .ok "" →
      requestLoop backend = (.error ⟨"Empty response from API", none, false⟩, 1, [])) ∧
    (∀ (backend : Nat → HttpResp) (c : String), backend 0 = .ok c → c ≠ "" →
      requestLoop backend = (.ok c, 1, [])) ∧
    (∀ (backend : Nat → HttpResp) (e₀ e₁ : TranslationError),
      singleAttempt (backend 0) = .error e₀ → e₀.isRetryable = true →
      singleAttempt (backend 1) = .error e₁ → e₁.isRetryable = true →
      requestLoop backend = (singleAttempt (backend 2), 3, [1000, 2000])) := by
  refine ⟨?_, ?_, ?_, ?_, ?_, ?_⟩
  · intro s
    simp [isRetryableError]
  · intro backend
    exact attemptLoop_attempts_le backend 1000 2 0
  · intro backend s b h0 hs
    simp [requestLoop, attemptLoop, h0, singleAttempt, hs]
  · intro backend h0
    simp [requestLoop, attemptLoop, h0, singleAttempt]
  · intro backend c h0 hc
    simp [requestLoop, attemptLoop, h0, singleAttempt, hc]
  · intro backend e₀ e₁ h0 hr0 h1 hr1
    simp [requestLoop, attemptLoop, h0, h1, hr0, hr1]

/-- Witness for C1: a backend answering HTTP 500 twice then 200 with content
yields the content after exactly 3 requests with backoff delays 1000 ms and
2000 ms; a backend answering HTTP 400 propagates the error after exactly 1
request. -/
theorem C1_retry_policy_witness :
    requestLoop
        (fun i => if i = 0 then .err 500 "" else if i = 1 then .err 500 "" else .ok "content") =
      (.ok "content", 3, [1000, 2000]) ∧
    requestLoop (fun _ => .err 400 "Bad Request") =
      (singleAttempt (.err 400 "Bad Request"), 1, []) := by
  constructor
  · have h :=
      C1_retry_policy.2.2.2.2.2
        (fun i => if i = 0 then .err 500 "" else if i = 1 then .err 500 "" else .ok "content")
        ⟨"API error: 500", some 500, true⟩ ⟨"API error: 500", some 500, true⟩
        (by decide) (by decide) (by decide) (by decide)
    simpa using h
  · exact C1_retry_policy.2.2.1 (fun _ => .err 400 "Bad Request") 400 "Bad Request" rfl
      (by decide)

/-- C2: when the normalized completion endpoint is an absolute http/https URL
and the API key is empty, `chatCompletion` fails with the non-retryable
missing-credential error and issues zero requests; when the normalized
endpoint is relative, no Authorization header is attached even with a key
configured; when it is absolute and a key is configured, the
`Bearer` Authorization header is attached. -/
theorem C2_credential_handling :
    (∀ (apiUrl : String) (backend : Nat → HttpResp),
      isAbsoluteUrl (normalizeApiUrl apiUrl) = true →
      chatCompletion apiUrl "" backend =
        ⟨none, 0, [], .error ⟨"API Key is required", none, false⟩⟩) ∧
    (∀ (apiUrl apiKey : String) (backend : Nat → HttpResp),
      isAbsoluteUrl (normalizeApiUrl apiUrl) = false →
      (chatCompletion apiUrl apiKey backend).authHeader = none) ∧
    (∀ (apiUrl apiKey : String) (backend : Nat → HttpResp),
      isAbsoluteUrl (normalizeApiUrl apiUrl) = true → apiKey ≠ "" →
      (chatCompletion apiUrl apiKey backend).authHeader = some ("Bearer " ++ apiKey)) := by
  refine ⟨?_, ?_, ?_⟩
  · intro apiUrl backend h
    simp [chatCompletion, h]
  · intro apiUrl apiKey backend h
    simp [chatCompletion, h]
  · intro apiUrl apiKey backend h hk
    simp [chatCompletion, h, hk]

/-- Witness for C2: the absolute endpoint `https://api.moonshot.cn/v1` with
no key fails immediately with zero requests; the relative local-proxy path
`/api/chat/completions` sends no Authorization header even with a key; the
absolute endpoint with key `k` sends `Bearer k`. -/
theorem C2_credential_handling_witness :
    chatCompletion "https://api.moonshot.cn/v1" "" (fun _ => .ok "hi") =
      ⟨none, 0, [], .error ⟨"API Key is required", none, false⟩⟩ ∧
    (chatCompletion "/api/chat/completions" "k" (fun _ => .ok "hi")).authHeader = none ∧
    (chatCompletion "https://api.moonshot.cn/v1" "k" (fun _ => .ok "hi")).authHeader =
      some ("Bearer " ++ "k") := by
  refine ⟨?_, ?_, ?_⟩
  · exact C2_credential_handling.1 "https://api.moonshot.cn/v1" (fun _ => .ok "hi") (by decide)
  · exact C2_credential_handling.2.1 "/api/chat/completions" "k" (fun _ => .ok "hi") (by decide)
  · exact C2_credential_handling.2.2 "https://api.moonshot.cn/v1" "k" (fun _ => .ok "hi")
      (by decide) (by decide)

/-- While a flush timer is pending, feeding events through
`scheduleProgressSave` only overwrites the pending slot: no flush happens,
the timer and the rest of the state are untouched. -/
theorem runEvents_timer_set (events : List (Nat × ProgressWrite)) :
    ∀ st : ProgressState, st.timer.isSome →
      runEvents st events =
        { st with pending := events.foldl (fun _ e => some e.2) st.pending } := by
  induction events with
  | nil => intro st _; simp [runEvents]
  | cons e rest ih =>
    intro st h
    obtain ⟨tf, htf⟩ := Option.isSome_iff_exists.mp h
    obtain ⟨t, w⟩ := e
    have hsched : scheduleProgressSave t w st = { st with pending := some w } := by
      simp [scheduleProgressSave, htf]
    rw [runEvents, hsched, ih _ (by simp [htf])]
    simp

/-- Folding the slot-overwrite over a list starting from an occupied slot
yields the last written value. -/
theorem foldl_overwrite (rest : List (Nat × ProgressWrite)) :
    ∀ w : ProgressWrite,
      rest.foldl (fun (_ : Option ProgressWrite) e => some e.2) (some w) =
        some (rest.foldl (fun _ e => e.2) w) := by
  induction rest with
  | nil => intro w; simp
  | cons e rest ih => intro w; simp [ih]

/-- C3 (amended): each LocationEvent overwrites the single pending slot; a
flush happens immediately exactly when at least 1500 ms have elapsed since
the last flush and no timer is pending; otherwise a single timer is
scheduled for the remainder of the window (an already pending timer is left
alone, so at most one is ever scheduled); when the timer fires it flushes
whatever is pending at that moment; and for a nonempty burst of events that
starts within 1500 ms of the last flush and is then settled by the timer
firing, exactly one durable write is issued and it carries the last event's
data — strictly fewer writes than events as soon as the burst has at least
two events. -/
theorem C3_progress_throttling :
    (∀ (now : Nat) (w : ProgressWrite) (st : ProgressState),
      1500 ≤ now - st.lastFlushAt → st.timer = none →
      scheduleProgressSave now w st =
        { st with pending := none, lastFlushAt := now,
                  memWrites := st.memWrites ++ [w], dbWrites := st.dbWrites ++ [w] }) ∧
    (∀ (now : Nat) (w : ProgressWrite) (st : ProgressState),
      now - st.lastFlushAt < 1500 → st.timer = none → st.lastFlushAt ≤ now →
      scheduleProgressSave now w st =
        { st with pending := some w, timer := some (st.lastFlushAt + 1500) }) ∧
    (∀ (now : Nat) (w : ProgressWrite) (st : ProgressState) (tf : Nat),
      st.timer = some tf →
      scheduleProgressSave now w st = { st with pending := some w }) ∧
    (∀ (st : ProgressState) (tf : Nat) (w : ProgressWrite),
      st.timer = some tf → st.pending = some w →
      timerFire st =
        { st with pending := none, timer := none, lastFlushAt := tf,
                  memWrites := st.memWrites ++ [w], dbWrites := st.dbWrites ++ [w] }) ∧
    (∀ (t₁ : Nat) (w₁ : ProgressWrite) (rest : List (Nat × ProgressWrite))
        (st : ProgressState),
      st.timer = none → st.lastFlushAt ≤ t₁ → t₁ - st.lastFlushAt < 1500 →
      timerFire (runEvents st ((t₁, w₁) :: rest)) =
        { st with pending := none, timer := none,
                  lastFlushAt := st.lastFlushAt + 1500,
                  memWrites := st.memWrites ++ [rest.foldl (fun _ e => e.2) w₁],
                  dbWrites := st.dbWrites ++ [rest.foldl (fun _ e => e.2) w₁] }) ∧
    (∀ (t₁ : Nat) (w₁ : ProgressWrite) (rest : List (Nat × ProgressWrite))
        (st : ProgressState),
      st.timer = none → st.lastFlushAt ≤ t₁ → t₁ - st.lastFlushAt < 1500 → rest ≠ [] →
      (timerFire (runEvents st ((t₁, w₁) :: rest))).dbWrites.length - st.dbWrites.length <
        ((t₁, w₁) :: rest).length) := by
  have hsched₂ :
      ∀ (now : Nat) (w : ProgressWrite) (st : ProgressState),
        now - st.lastFlushAt < 1500 → st.timer = none → st.lastFlushAt ≤ now →
        scheduleProgressSave now w st =
          { st with pending := some w, timer := some (st.lastFlushAt + 1500) } := by
    intro now w st h1 h2 h3
    have : now + (1500 - (now - st.lastFlushAt)) = st.lastFlushAt + 1500 := by omega
    simp [scheduleProgressSave, h2, Nat.not_le.mpr h1, this]
  have hburst :
      ∀ (t₁ : Nat) (w₁ : ProgressWrite) (rest : List (Nat × ProgressWrite))
        (st : ProgressState),
        st.timer = none → st.lastFlushAt ≤ t₁ → t₁ - st.lastFlushAt < 1500 →
        timerFire (runEvents st ((t₁, w₁) :: rest)) =
          { st with pending := none, timer := none,
                    lastFlushAt := st.lastFlushAt + 1500,
                    memWrites := st.memWrites ++ [rest.foldl (fun _ e => e.2) w₁],
                    dbWrites := st.dbWrites ++ [rest.foldl (fun _ e => e.2) w₁] } := by
    intro t₁ w₁ rest st h1 h2 h3
    rw [runEvents, hsched₂ t₁ w₁ st h3 h1 h2,
      runEvents_timer_set rest _ (by simp), foldl_overwrite]
    simp [timerFire, flushProgressSave]
  refine ⟨?_, hsched₂, ?_, ?_, hburst, ?_⟩
  · intro now w st h1 h2
    simp [scheduleProgressSave, flushProgressSave, h1, h2]
  · intro now w st tf h
    simp [scheduleProgressSave, h]
  · intro st tf w h1 h2
    simp [timerFire, flushProgressSave, h1, h2]
  · intro t₁ w₁ rest st h1 h2 h3 h4
    rw [hburst t₁ w₁ rest st h1 h2 h3]
    have : rest.length ≠ 0 := fun h => h4 (List.length_eq_zero.mp h)
    simp
    omega

/-- Witness for C3 (amended), on concrete states: an event 2000 ms after the
last flush with no timer flushes immediately; an event 200 ms after the last
flush schedules the timer for the 1500 ms mark; an event under a pending
timer only overwrites the slot; a firing timer flushes the pending write;
and a two-event burst starting inside the window yields exactly one durable
write, carrying the second event's data, which is strictly fewer writes than
events. -/
theorem C3_progress_throttling_witness :
    scheduleProgressSave 2000 ⟨"b", "c1", 0⟩ ⟨none, none, 0, [], [], false⟩ =
      ⟨none, none, 2000, [⟨"b", "c1", 0⟩], [⟨"b", "c1", 0⟩], false⟩ ∧
    scheduleProgressSave 200 ⟨"b", "c1", 0⟩ ⟨none, none, 0, [], [], false⟩ =
      ⟨some ⟨"b", "c1", 0⟩, some 1500, 0, [], [], false⟩ ∧
    scheduleProgressSave 300 ⟨"b", "c2", 1⟩ ⟨some ⟨"b", "c1", 0⟩, some 1500, 0, [], [], false⟩ =
      ⟨some ⟨"b", "c2", 1⟩, some 1500, 0, [], [], false⟩ ∧
    timerFire ⟨some ⟨"b", "c2", 1⟩, some 1500, 0, [], [], false⟩ =
      ⟨none, none, 1500, [⟨"b", "c2", 1⟩], [⟨"b", "c2", 1⟩], false⟩ ∧
    timerFire (runEvents ⟨none, none, 0, [], [], false⟩ [(200, ⟨"b", "c1", 0⟩), (400, ⟨"b", "c2", 1⟩)]) =
      ⟨none, none, 1500, [⟨"b", "c2", 1⟩], [⟨"b", "c2", 1⟩], false⟩ ∧
    (timerFire (runEvents ⟨none, none, 0, [], [], false⟩
        [(200, ⟨"b", "c1", 0⟩), (400, ⟨"b", "c2", 1⟩)])).dbWrites.length - 0 < 2 := by
  refine ⟨?_, ?_, ?_, ?_, ?_, ?_⟩
  · exact C3_progress_throttling.1 2000 ⟨"b", "c1", 0⟩ ⟨none, none, 0, [], [], false⟩
      (by decide) rfl
  · exact C3_progress_throttling.2.1 200 ⟨"b", "c1", 0⟩ ⟨none, none, 0, [], [], false⟩
      (by decide) rfl (by decide)
  · exact C3_progress_throttling.2.2.1 300 ⟨"b", "c2", 1⟩
      ⟨some ⟨"b", "c1", 0⟩, some 1500, 0, [], [], false⟩ 1500 rfl
  · exact C3_progress_throttling.2.2.2.1 ⟨some ⟨"b", "c2", 1⟩, some 1500, 0, [], [], false⟩
      1500 ⟨"b", "c2", 1⟩ rfl rfl
  · exact C3_progress_throttling.2.2.2.2.1 200 ⟨"b", "c1", 0⟩ [(400, ⟨"b", "c2", 1⟩)]
      ⟨none, none, 0, [], [], false⟩ rfl (by decide) (by decide)
  · exact C3_progress_throttling.2.2.2.2.2 200 ⟨"b", "c1", 0⟩ [(400, ⟨"b", "c2", 1⟩)]
      ⟨none, none, 0, [], [], false⟩ rfl (by decide) (by decide) (by decide)

/-- C3 counterexample to the claim as stated: two LocationEvents 200 ms
apart (so arriving faster than the 1500 ms throttle window) hit a session
whose last flush lies more than 1500 ms in the past; the first event flushes
immediately, the second is flushed by the trailing timer, so the trace
issues 2 durable writes for 2 events — not strictly fewer writes than
events. -/
theorem C3_strict_inequality_counterexample :
    (timerFire (scheduleProgressSave 10200 ⟨"b", "c2", 1⟩
        (scheduleProgressSave 10000 ⟨"b", "c1", 0⟩ initialProgressState))).dbWrites =
      [⟨"b", "c1", 0⟩, ⟨"b", "c2", 1⟩] ∧
    ¬ ((timerFire (scheduleProgressSave 10200 ⟨"b", "c2", 1⟩
        (scheduleProgressSave 10000 ⟨"b", "c1", 0⟩ initialProgressState))).dbWrites.length < 2) := by
  constructor
  · decide
  · decide

/-- C4: session teardown clears any scheduled timer, synchronously flushes
the pending progress write to both the in-memory book list and durable
storage, and only then marks the book handle released; a teardown (and a
bare flush) run a second time is a no-op because flushing clears the
pending slot. -/
theorem C4_teardown_flush :
    (∀ (now : Nat) (st : ProgressState) (w : ProgressWrite), st.pending = some w →
      teardown now st =
        { pending := none, timer := none, lastFlushAt := now,
          memWrites := st.memWrites ++ [w], dbWrites := st.dbWrites ++ [w],
          destroyed := true }) ∧
    (∀ (now : Nat) (st : ProgressState), st.pending = none →
      teardown now st = { st with timer := none, destroyed := true }) ∧
    (∀ (now now' : Nat) (st : ProgressState),
      flushProgressSave now' (flushProgressSave now st) = flushProgressSave now st) ∧
    (∀ (now now' : Nat) (st : ProgressState),
      teardown now' (teardown now st) = teardown now st) := by
  refine ⟨?_, ?_, ?_, ?_⟩
  · intro now st w h
    simp [teardown, flushProgressSave, h]
  · intro now st h
    simp [teardown, flushProgressSave, h]
  · intro now now' st
    cases h : st.pending <;> simp [flushProgressSave, h]
  · intro now now' st
    cases h : st.pending <;> simp [teardown, flushProgressSave, h]

/-- Witness for C4: tearing down a session with a pending write and a live
timer at time 2000 cancels the timer, writes the pending progress to both
stores and releases the handle; a second teardown changes nothing. -/
theorem C4_teardown_flush_witness :
    teardown 2000 ⟨some ⟨"b", "c1", 0⟩, some 1500, 900, [], [], false⟩ =
      ⟨none, none, 2000, [⟨"b", "c1", 0⟩], [⟨"b", "c1", 0⟩], true⟩ ∧
    teardown 5000 (teardown 2000 ⟨some ⟨"b", "c1", 0⟩, some 1500, 900, [], [], false⟩) =
      teardown 2000 ⟨some ⟨"b", "c1", 0⟩, some 1500, 900, [], [], false⟩ := by
  constructor
  · exact C4_teardown_flush.1 2000 ⟨some ⟨"b", "c1", 0⟩, some 1500, 900, [], [], false⟩
      ⟨"b", "c1", 0⟩ rfl
  · exact C4_teardown_flush.2.2.2 2000 5000 ⟨some ⟨"b", "c1", 0⟩, some 1500, 900, [], [], false⟩

/-- C5: hashing a string is deterministic; reading a translation back right
after saving it returns exactly the saved text; and a later save for the
same `(bookId, hash)` key unconditionally overwrites the earlier value. -/
theorem C5_cache_roundtrip :
    (∀ s : String, hashText s = hashText s) ∧
    (∀ (tc : TranslationCache) (bookId textHash text : String),
      getTranslation (saveTranslation tc bookId textHash text) bookId textHash = some text) ∧
    (∀ (tc : TranslationCache) (bookId textHash t₁ t₂ : String),
      getTranslation
        (saveTranslation (saveTranslation tc bookId textHash t₁) bookId textHash t₂)
        bookId textHash = some t₂) := by
  refine ⟨fun s => rfl, ?_, ?_⟩ <;> · intros; simp [getTranslation, saveTranslation]

/-- C6 counterexample: `hashText` is not order-independent — the reordering
`"ba"` of `"ab"` hashes differently — and distinct texts can collide
(`"Aa"` and `"BB"` share a key), so re-extracted text does not always miss. -/
theorem C6_order_independence_counterexample :
    ("ab" : String).data.Perm ("ba" : String).data ∧ hashText "ab" ≠ hashText "ba" ∧
    ("Aa" : String) ≠ "BB" ∧ hashText "Aa" = hashText "BB" := by
  refine ⟨by decide, by decide, by decide, by decide⟩

/-- C6 (amended): the content hash is a deterministic digest of the exact
character sequence of the paragraph text — identical paragraphs across
re-renders resolve to the same key — but it is order-dependent: there are
reorderings of a text that hash differently. -/
theorem C6_hash_exact_content :
    (∀ s t : String, s.data = t.data → hashText s = hashText t) ∧
    (∃ s t : String, s.data.Perm t.data ∧ hashText s ≠ hashText t) := by
  constructor
  · intro s t h
    simp [hashText, utf16CodeUnits, h]
  · exact ⟨"ab", "ba", by decide, by decide⟩

/-- Witness for C6 (amended) at a concrete string. -/
theorem C6_hash_exact_content_witness :
    hashText "abc" = hashText "abc" ∧
    (∃ s t : String, s.data.Perm t.data ∧ hashText s ≠ hashText t) :=
  ⟨C6_hash_exact_content.1 "abc" "abc" rfl, C6_hash_exact_content.2⟩

/-- C7: a failed translation request never writes to the cache; whenever a
request was actually issued and failed, the loading placeholder now shows
the error's message and the `data-translated` marker is removed, leaving
the paragraph in the untranslated, retryable state. -/
theorem C7_failure_never_populates_cache :
    ∀ (translationEnabled : Bool) (p : Paragraph) (bookId : Option String)
      (textHash : String) (cache : TranslationCache) (e : TranslationError),
      (handleDblClick translationEnabled p bookId textHash cache (.error e)).2.1 = cache ∧
      ((handleDblClick translationEnabled p bookId textHash cache (.error e)).2.2 = true →
        (handleDblClick translationEnabled p bookId textHash cache (.error e)).1.dataTranslated
            = none ∧
        (handleDblClick translationEnabled p bookId textHash cache (.error e)).1.blocks =
          p.blocks ++ [e.message]) := by
  intro enabled p bookId textHash cache e
  cases enabled with
  | false => simp [handleDblClick]
  | true =>
    by_cases h : p.dataTranslated = some "true"
    · simp [handleDblClick, h]
    · simp [handleDblClick, h, setLastBlock]

/-- Witness for C7: a failing request against a fresh paragraph leaves the
cache empty, removes the marker and shows the error message. -/
theorem C7_failure_never_populates_cache_witness :
    (handleDblClick true ⟨none, false, []⟩ (some "b") "h" emptyCache
        (.error ⟨"API error: 400", some 400, false⟩)).2.1 = emptyCache ∧
    (handleDblClick true ⟨none, false, []⟩ (some "b") "h" emptyCache
        (.error ⟨"API error: 400", some 400, false⟩)).1.dataTranslated = none ∧
    (handleDblClick true ⟨none, false, []⟩ (some "b") "h" emptyCache
        (.error ⟨"API error: 400", some 400, false⟩)).1.blocks = ["API error: 400"] := by
  have h := C7_failure_never_populates_cache true ⟨none, false, []⟩ (some "b") "h" emptyCache
    ⟨"API error: 400", some 400, false⟩
  have h2 := h.2 rfl
  exact ⟨h.1, h2.1, by simpa using h2.2⟩

/-- C8: the double-click guard checks only `data-translated === 'true'`, so
a paragraph whose marker is `'loading'` (a translation already in flight)
accepts a second double-click and issues another LLM request — the
at-most-one-request-in-flight property fails; with translation disabled, or
with the paragraph already translated, no request is issued. -/
theorem C8_loading_state_not_blocked :
    (handleDblClick true ⟨some "loading", false, ["Translating..."]⟩ (some "b") "h"
        emptyCache (.ok "x")).2.2 = true ∧
    (handleDblClick false ⟨none, false, []⟩ (some "b") "h" emptyCache (.ok "x")).2.2 = false ∧
    (handleDblClick true ⟨some "true", true, ["x"]⟩ (some "b") "h" emptyCache
        (.ok "x")).2.2 = false := by
  refine ⟨by decide, by decide, by decide⟩

/-- C9 counterexample: with a spine entry `"ch1.html"` that would display
successfully and the request `"ch1"` — a prefix of that entry — the resolver
reports failure instead of displaying the prefix-matching entry: the code
performs no prefix matching. -/
theorem C9_prefix_match_counterexample :
    goToChapter (fun s => s == "ch1.html") ["ch1.html"] "ch1" = none ∧
    strStartsWith "ch1.html" "ch1" = true ∧
    (fun s => s == "ch1.html") "ch1.html" = true := by
  refine ⟨by decide, by decide, by decide⟩

/-- C9 (amended): navigation resolves by an ordered fallback chain stopping
at the first success — (1) display the href as given; (2) if a `#` fragment
can be stripped, display the base path; (3) display the first spine entry
that equals the href or its fragment-stripped form, ends with either of
them, or is a suffix of the full href; when even that entry fails to
display, or no entry matches, the failure is soft and nothing is displayed
(`none`: current location unchanged). -/
theorem C9_navigation_fallback :
    (∀ (display : String → Bool) (spine : List String) (href : String),
      display href = true → goToChapter display spine href = some href) ∧
    (∀ (display : String → Bool) (spine : List String) (href : String),
      display href = false → stripFragment href ≠ href →
      display (stripFragment href) = true →
      goToChapter display spine href = some (stripFragment href)) ∧
    (∀ (display : String → Bool) (spine : List String) (href item : String),
      display href = false →
      (stripFragment href = href ∨ display (stripFragment href) = false) →
      spine.find? (spineMatch href (stripFragment href)) = some item →
      display item = true →
      goToChapter display spine href = some item) ∧
    (∀ (display : String → Bool) (spine : List String) (href item : String),
      display href = false →
      (stripFragment href = href ∨ display (stripFragment href) = false) →
      spine.find? (spineMatch href (stripFragment href)) = some item →
      display item = false →
      goToChapter display spine href = none) ∧
    (∀ (display : String → Bool) (spine : List String) (href : String),
      display href = false →
      (stripFragment href = href ∨ display (stripFragment href) = false) →
      spine.find? (spineMatch href (stripFragment href)) = none →
      goToChapter display spine href = none) := by
  refine ⟨?_, ?_, ?_, ?_, ?_⟩
  · intro display spine href h
    simp [goToChapter, h]
  · intro display spine href h1 h2 h3
    simp [goToChapter, h1, h2, h3]
  · intro display spine href item h1 h2 h3 h4
    rcases h2 with h2 | h2
    · rw [h2] at h3
      simp [goToChapter, h1, h2, h3, h4]
    · simp [goToChapter, h1, h2, h3, h4]
  · intro display spine href item h1 h2 h3 h4
    rcases h2 with h2 | h2
    · rw [h2] at h3
      simp [goToChapter, h1, h2, h3, h4]
    · simp [goToChapter, h1, h2, h3, h4]
  · intro display spine href h1 h2 h3
    rcases h2 with h2 | h2
    · rw [h2] at h3
      simp [goToChapter, h1, h2, h3]
    · simp [goToChapter, h1, h2, h3]

/-- Witness for C9 (amended): one concrete navigation for each step of the
fallback chain, plus the two soft-failure outcomes. -/
theorem C9_navigation_fallback_witness :
    goToChapter (fun s => s == "ch1.html") ["ch1.html"] "ch1.html" = some "ch1.html" ∧
    goToChapter (fun s => s == "ch1.html") [] "ch1.html#sec" = some "ch1.html" ∧
    goToChapter (fun s => s == "text/ch1.html") ["text/ch1.html"] "ch1.html" =
      some "text/ch1.html" ∧
    goToChapter (fun _ => false) ["text/ch1.html"] "ch1.html" = none ∧
    goToChapter (fun _ => false) ["other.html"] "zzz" = none := by
  refine ⟨?_, ?_, ?_, ?_, ?_⟩
  · exact C9_navigation_fallback.1 (fun s => s == "ch1.html") ["ch1.html"] "ch1.html"
      (by decide)
  · exact C9_navigation_fallback.2.1 (fun s => s == "ch1.html") [] "ch1.html#sec"
      (by decide) (by decide) (by decide)
  · exact C9_navigation_fallback.2.2.1 (fun s => s == "text/ch1.html") ["text/ch1.html"]
      "ch1.html" "text/ch1.html" (by decide) (Or.inl (by decide)) (by decide) (by decide)
  · exact C9_navigation_fallback.2.2.2.1 (fun _ => false) ["text/ch1.html"] "ch1.html"
      "text/ch1.html" (by decide) (Or.inl (by decide)) (by decide) (by decide)
  · exact C9_navigation_fallback.2.2.2.2 (fun _ => false) ["other.html"] "zzz"
      (by decide) (Or.inl (by decide)) (by decide)

/-- C10 counterexample: in grammar mode the produced quick-prompt text does
not contain the selection at all (the template ignores its argument), while
plain mode returns exactly the selection. -/
theorem C10_selection_not_included_counterexample :
    containsSub (getQuickPrompt .grammar "hello world" .zh) "hello world" = false ∧
    getQuickPrompt .plain "hello world" .zh = "hello world" := by
  exact ⟨by decide, rfl⟩

/-- C10 (amended): for plain mode the produced quick-prompt text is exactly
the selection; for grammar and background mode it is the mode's fixed
template, independent of the selection (the quoted selection is not embedded
in it). -/
theorem C10_quick_prompt_templates :
    (∀ (s : String) (lang : PromptLanguage), getQuickPrompt .plain s lang = s) ∧
    (∀ s t : String, getQuickPrompt .grammar s .zh = getQuickPrompt .grammar t .zh) ∧
    (∀ s t : String, getQuickPrompt .background s .zh = getQuickPrompt .background t .zh) ∧
    (∀ s t : String, getQuickPrompt .grammar s .en = getQuickPrompt .grammar t .en) ∧
    (∀ s t : String, getQuickPrompt .background s .en = getQuickPrompt .background t .en) := by
  refine ⟨?_, ?_, ?_, ?_, ?_⟩
  · intro s lang; cases lang <;> rfl
  all_goals intro s t; rfl

end Ereader
